import Mathlib

/-!
Shallow embedding of the guardrail-checking layer in `src/verification.py`
(event-triplet ordering, window bounds, sampling consistency, split
disjointness, minimum class presence, label domain).

Python integers are embedded as `Int`; Python floats are idealised as `ℚ`;
Python sets as `Finset Int`; an insertion-ordered dict as an association
list.  A function that raises `AssertionError` is embedded as a function
into `Except ε Unit` whose error payload is the data interpolated into the
raised message (the structured content of the message, since Python's set
formatting order is unspecified).  The Z3-backed branch of each check binds
the solver variables to the concrete argument values and queries
satisfiability of the conjunctive linear predicate; Z3 is a sound and
complete decision procedure for this fragment, so that branch is embedded
as the satisfiability proposition itself.
-/

/-- Direct (non-Z3) branch of `check_event_triplet`:
`ok = (0 <= onset < apex < offset <= (n_frames - 1))`, message `"OK"` on
success and the `Violation: (...)` string interpolating the arguments on
failure. -/
def check_event_triplet (onset apex offset n_frames : Int) : Bool × String :=
  let ok : Bool := decide (0 ≤ onset ∧ onset < apex ∧ apex < offset ∧ offset ≤ n_frames - 1)
  (ok, if ok then "OK" else
    "Violation: (onset=" ++ toString onset ++ ", apex=" ++ toString apex ++
      ", offset=" ++ toString offset ++ ", n=" ++ toString n_frames ++ ")")

/-- Satisfiability query issued by the Z3 branch of `check_event_triplet`:
fresh integer variables `o, a, f, N` are constrained to equal the concrete
arguments, then `And(0 <= o, o < a, a < f, f <= N - 1)` is asserted and the
solver is asked whether the conjunction is satisfiable. -/
def check_event_triplet_z3_sat (onset apex offset n_frames : Int) : Prop :=
  ∃ o a f N : Int,
    (o = onset ∧ a = apex ∧ f = offset ∧ N = n_frames) ∧
    (0 ≤ o ∧ o < a ∧ a < f ∧ f ≤ N - 1)

/-- Direct (non-Z3) branch of `check_window_bounds`:
`ok = (0 <= start) and (length >= 0) and (start + length <= n_frames)`. -/
def check_window_bounds (start length n_frames : Int) : Bool × String :=
  let ok : Bool := decide (0 ≤ start ∧ 0 ≤ length ∧ start + length ≤ n_frames)
  (ok, if ok then "OK" else
    "Window out of bounds: start=" ++ toString start ++ ", length=" ++ toString length ++
      ", n=" ++ toString n_frames)

/-- Satisfiability query issued by the Z3 branch of `check_window_bounds`:
variables `s, L, N` bound to the concrete arguments, then
`And(0 <= s, 0 <= L, s + L <= N)` asserted. -/
def check_window_bounds_z3_sat (start length n_frames : Int) : Prop :=
  ∃ s L N : Int,
    (s = start ∧ L = length ∧ N = n_frames) ∧
    (0 ≤ s ∧ 0 ≤ L ∧ s + L ≤ N)

/-- Failure message of `check_sampling_consistency` when the timing is
inconsistent (Python interpolates `frames`, `fps` and `duration_sec`;
the numeric rendering of the rationals stands in for Python float
formatting). -/
def inconsistentTimingMsg (frames : Int) (fps duration_sec : ℚ) : String :=
  "Inconsistent timing: frames=" ++ toString frames ++ ", fps=" ++ toString fps ++
    ", duration=" ++ toString duration_sec ++ "s"

/-- `check_sampling_consistency`: rejects `fps <= 0` before the division,
otherwise `expected = frames / fps` and
`ok = |expected - duration_sec| <= tolerance * max(1.0, duration_sec)`.
The Python default `tolerance=0.02` corresponds to `1/50`. -/
def check_sampling_consistency (frames : Int) (fps duration_sec tolerance : ℚ) : Bool × String :=
  if fps ≤ 0 then (false, "fps must be positive")
  else
    let expected : ℚ := (frames : ℚ) / fps
    let ok : Bool := decide (|expected - duration_sec| ≤ tolerance * max 1 duration_sec)
    (ok, if ok then "OK" else inconsistentTimingMsg frames fps duration_sec)

/-- `assert_disjoint_splits`: the three iterables are turned into sets, the
union of the three pairwise intersections is computed, and the assertion
fails (raises, carrying the overlap set in the message) exactly when that
union is non-empty. -/
def assert_disjoint_splits (train_ids val_ids test_ids : List Int) : Except (Finset Int) Unit :=
  let t := train_ids.toFinset
  let v := val_ids.toFinset
  let u := test_ids.toFinset
  let overlap := (t ∩ v) ∪ (t ∩ u) ∪ (v ∩ u)
  if overlap.card = 0 then Except.ok () else Except.error overlap

/-- The `too_small` dict built for one split inside `min_class_presence`:
for each distinct label of the split (as produced by `Counter`), its count
when that count is strictly below `min_count`. -/
def tooSmall (labels : List Int) (min_count : Nat) : List (Int × Nat) :=
  labels.dedup.filterMap fun c =>
    if labels.count c < min_count then some (c, labels.count c) else none

/-- `min_class_presence`: iterates over the splits in order; for each split
builds `too_small` and asserts it is empty, so the first split with an
under-represented class raises, carrying the split name and its
class-to-count dict. -/
def min_class_presence : List (String × List Int) → Nat → Except (String × List (Int × Nat)) Unit
  | [], _ => Except.ok ()
  | (split, labels) :: rest, min_count =>
    let ts := tooSmall labels min_count
    if ts.isEmpty then min_class_presence rest min_count else Except.error (split, ts)

/-- `assert_label_domain`: `bad = set(unique(y)) - set(allowed)`; the
assertion fails (raises, carrying `bad` in the message) exactly when `bad`
is non-empty. -/
def assert_label_domain (y allowed : List Int) : Except (Finset Int) Unit :=
  let bad := y.toFinset \ allowed.toFinset
  if bad = ∅ then Except.ok () else Except.error bad

/-- Decidable equality for `Except`, so that the raising checks can be
evaluated on concrete inputs. -/
instance {ε α : Type} [DecidableEq ε] [DecidableEq α] : DecidableEq (Except ε α) := fun a b =>
  match a, b with
  | Except.ok x, Except.ok y =>
    if h : x = y then isTrue (by rw [h]) else isFalse (by intro hc; cases hc; exact h rfl)
  | Except.ok _, Except.error _ => isFalse fun hc => Except.noConfusion hc
  | Except.error _, Except.ok _ => isFalse fun hc => Except.noConfusion hc
  | Except.error x, Except.error y =>
    if h : x = y then isTrue (by rw [h]) else isFalse (by intro hc; cases hc; exact h rfl)

/-- Claim C2: `check_event_triplet onset apex offset n_frames` returns
`ok = true` exactly when `0 ≤ onset < apex < offset ≤ n_frames - 1`; in
particular `onset = apex`, `apex = offset` and `offset = n_frames` each
give `ok = false`. -/
theorem check_event_triplet_ok_iff (onset apex offset n_frames : Int) :
    ((check_event_triplet onset apex offset n_frames).1 = true ↔
      0 ≤ onset ∧ onset < apex ∧ apex < offset ∧ offset ≤ n_frames - 1) ∧
    (check_event_triplet onset onset offset n_frames).1 = false ∧
    (check_event_triplet onset apex apex n_frames).1 = false ∧
    (check_event_triplet onset apex n_frames n_frames).1 = false := by
  refine ⟨by simp [check_event_triplet], ?_, ?_, ?_⟩
  · simp [check_event_triplet]
  · simp [check_event_triplet]
  · simp [check_event_triplet]

/-- Claim C3: `check_window_bounds start length n_frames` returns
`ok = true` exactly when `start ≥ 0`, `length ≥ 0` and
`start + length ≤ n_frames`; a zero-length window at the origin of an
empty range is accepted, and a negative `start` or negative `length` is
rejected regardless of the other arguments. -/
theorem check_window_bounds_ok_iff (start length n_frames : Int) :
    ((check_window_bounds start length n_frames).1 = true ↔
      0 ≤ start ∧ 0 ≤ length ∧ start + length ≤ n_frames) ∧
    (check_window_bounds 0 0 0).1 = true ∧
    (start < 0 → (check_window_bounds start length n_frames).1 = false) ∧
    (length < 0 → (check_window_bounds start length n_frames).1 = false) := by
  refine ⟨by simp [check_window_bounds], by decide, ?_, ?_⟩ <;>
    simp [check_window_bounds] <;> omega

/-- Witness for C3 at a concrete input: start `-1` is negative and the
window `(-1, 1)` over `100` frames is rejected. -/
theorem check_window_bounds_ok_iff_witness :
    (check_window_bounds (-1) 1 100).1 = false :=
  (check_window_bounds_ok_iff (-1) 1 100).2.2.1 (by decide)

/-- Claim C1: strategy equivalence — for every concrete integer input, the
satisfiability verdict of the Z3 branch (variables bound to the concrete
arguments, conjunctive linear predicate queried) coincides with the `ok`
verdict of the direct fallback branch, for both `check_event_triplet` and
`check_window_bounds`. -/
theorem strategy_equivalence (onset apex offset n_frames start length m_frames : Int) :
    (check_event_triplet_z3_sat onset apex offset n_frames ↔
      (check_event_triplet onset apex offset n_frames).1 = true) ∧
    (check_window_bounds_z3_sat start length m_frames ↔
      (check_window_bounds start length m_frames).1 = true) := by
  constructor
  · constructor
    · rintro ⟨o, a, f, N, ⟨ho, ha, hf, hN⟩, h⟩
      subst ho; subst ha; subst hf; subst hN
      simpa [check_event_triplet] using h
    · intro h
      exact ⟨onset, apex, offset, n_frames, ⟨rfl, rfl, rfl, rfl⟩, by
        simpa [check_event_triplet] using h⟩
  · constructor
    · rintro ⟨s, L, N, ⟨hs, hL, hN⟩, h⟩
      subst hs; subst hL; subst hN
      simpa [check_window_bounds] using h
    · intro h
      exact ⟨start, length, m_frames, ⟨rfl, rfl, rfl⟩, by
        simpa [check_window_bounds] using h⟩

/-- Claim C4: `check_sampling_consistency` returns
`(false, "fps must be positive")` whenever `fps ≤ 0`, the division being
behind that early return; otherwise it accepts exactly when
`|frames / fps - duration_sec| ≤ tolerance * max 1 duration_sec`, so the
effective tolerance never shrinks below the absolute floor
`tolerance * 1`. -/
theorem check_sampling_consistency_spec (frames : Int) (fps duration_sec tolerance : ℚ) :
    (fps ≤ 0 →
      check_sampling_consistency frames fps duration_sec tolerance =
        (false, "fps must be positive")) ∧
    (0 < fps →
      ((check_sampling_consistency frames fps duration_sec tolerance).1 = true ↔
        |(frames : ℚ) / fps - duration_sec| ≤ tolerance * max 1 duration_sec)) ∧
    (0 ≤ tolerance → tolerance * 1 ≤ tolerance * max 1 duration_sec) := by
  refine ⟨fun h => by simp [check_sampling_consistency, h], fun h => ?_, fun h => ?_⟩
  · simp [check_sampling_consistency, not_le.mpr h]
  · exact mul_le_mul_of_nonneg_left (le_max_left 1 duration_sec) h

/-- Witness for C4 at concrete inputs: `fps = 0` yields the fixed
precondition failure, and at `frames = 300`, `fps = 30`,
`duration_sec = 10`, `tolerance = 1/100` the verdict is governed by the
tolerance inequality. -/
theorem check_sampling_consistency_spec_witness :
    check_sampling_consistency 300 0 10 (1/50) = (false, "fps must be positive") ∧
    ((check_sampling_consistency 300 30 10 (1/100)).1 = true ↔
      |(300 : ℚ) / 30 - 10| ≤ (1/100) * max 1 10) :=
  ⟨(check_sampling_consistency_spec 300 0 10 (1/50)).1 (by norm_num),
   (check_sampling_consistency_spec 300 30 10 (1/100)).2.1 (by norm_num)⟩

/-- Claim C9: each boolean-returning check answers `"OK"` exactly on
success; on failure the message interpolates the literal offending
argument values, except the `fps ≤ 0` precondition case of
`check_sampling_consistency`, whose message is the fixed string
`"fps must be positive"`. -/
theorem check_messages_spec (onset apex offset n_frames start length frames : Int)
    (fps duration_sec tolerance : ℚ) :
    ((check_event_triplet onset apex offset n_frames).1 = true →
      (check_event_triplet onset apex offset n_frames).2 = "OK") ∧
    ((check_event_triplet onset apex offset n_frames).1 = false →
      (check_event_triplet onset apex offset n_frames).2 =
        "Violation: (onset=" ++ toString onset ++ ", apex=" ++ toString apex ++
          ", offset=" ++ toString offset ++ ", n=" ++ toString n_frames ++ ")") ∧
    ((check_window_bounds start length n_frames).1 = true →
      (check_window_bounds start length n_frames).2 = "OK") ∧
    ((check_window_bounds start length n_frames).1 = false →
      (check_window_bounds start length n_frames).2 =
        "Window out of bounds: start=" ++ toString start ++ ", length=" ++ toString length ++
          ", n=" ++ toString n_frames) ∧
    ((check_sampling_consistency frames fps duration_sec tolerance).1 = true →
      (check_sampling_consistency frames fps duration_sec tolerance).2 = "OK") ∧
    (fps ≤ 0 →
      (check_sampling_consistency frames fps duration_sec tolerance).2 =
        "fps must be positive") ∧
    (0 < fps → (check_sampling_consistency frames fps duration_sec tolerance).1 = false →
      (check_sampling_consistency frames fps duration_sec tolerance).2 =
        inconsistentTimingMsg frames fps duration_sec) := by
  refine ⟨?_, ?_, ?_, ?_, ?_, ?_, ?_⟩
  · intro h; simp only [check_event_triplet] at h ⊢; simp [h]
  · intro h; simp only [check_event_triplet] at h ⊢; simp [h]
  · intro h; simp only [check_window_bounds] at h ⊢; simp [h]
  · intro h; simp only [check_window_bounds] at h ⊢; simp [h]
  · intro h
    by_cases hfps : fps ≤ 0
    · simp [check_sampling_consistency, hfps] at h
    · simp only [check_sampling_consistency, if_neg hfps] at h ⊢; simp [h]
  · intro h; simp [check_sampling_consistency, h]
  · intro hfps h
    simp only [check_sampling_consistency, if_neg (not_le.mpr hfps)] at h ⊢
    simp [h]

/-- Witness for C9 at concrete inputs: a failing triplet, a failing
window, a passing sampling check, and a non-positive fps. -/
theorem check_messages_spec_witness :
    (check_event_triplet 5 3 8 100).2 =
      "Violation: (onset=" ++ toString (5 : Int) ++ ", apex=" ++ toString (3 : Int) ++
        ", offset=" ++ toString (8 : Int) ++ ", n=" ++ toString (100 : Int) ++ ")" ∧
    (check_window_bounds 90 20 100).2 =
      "Window out of bounds: start=" ++ toString (90 : Int) ++ ", length=" ++
        toString (20 : Int) ++ ", n=" ++ toString (100 : Int) ∧
    (check_sampling_consistency 300 0 10 (1/50)).2 = "fps must be positive" :=
  ⟨(check_messages_spec 5 3 8 100 0 0 0 1 0 0).2.1 (by decide),
   (check_messages_spec 0 1 2 100 90 20 300 1 0 0).2.2.2.1 (by decide),
   (check_messages_spec 0 1 2 3 0 0 300 0 10 (1/50)).2.2.2.2.2.1 (by norm_num)⟩

/-- Claim C5: `assert_disjoint_splits` raises exactly when some identifier
lies in two of the three splits, succeeds silently otherwise, and the
raised failure carries exactly the union of the three pairwise
intersections; the two concrete cases from the spec behave as stated. -/
theorem assert_disjoint_splits_spec (train_ids val_ids test_ids : List Int) :
    (assert_disjoint_splits train_ids val_ids test_ids = Except.ok () ↔
      ∀ x : Int, ¬((x ∈ train_ids ∧ x ∈ val_ids) ∨ (x ∈ train_ids ∧ x ∈ test_ids) ∨
        (x ∈ val_ids ∧ x ∈ test_ids))) ∧
    (∀ S, assert_disjoint_splits train_ids val_ids test_ids = Except.error S →
      ∀ x : Int, x ∈ S ↔ ((x ∈ train_ids ∧ x ∈ val_ids) ∨ (x ∈ train_ids ∧ x ∈ test_ids) ∨
        (x ∈ val_ids ∧ x ∈ test_ids))) ∧
    assert_disjoint_splits [1, 2, 3] [4, 5] [6, 7] = Except.ok () ∧
    assert_disjoint_splits [1, 2, 3] [3, 4] [5] = Except.error {3} := by
  have hmem : ∀ x : Int,
      x ∈ (train_ids.toFinset ∩ val_ids.toFinset) ∪ (train_ids.toFinset ∩ test_ids.toFinset) ∪
        (val_ids.toFinset ∩ test_ids.toFinset) ↔
      ((x ∈ train_ids ∧ x ∈ val_ids) ∨ (x ∈ train_ids ∧ x ∈ test_ids) ∨
        (x ∈ val_ids ∧ x ∈ test_ids)) := by
    intro x
    simp [or_assoc]
  refine ⟨?_, ?_, by decide, by decide⟩
  · simp only [assert_disjoint_splits]
    split_ifs with h
    · rw [Finset.card_eq_zero] at h
      constructor
      · intro _ x hx
        have hx2 := (hmem x).mpr hx
        rw [h] at hx2
        exact absurd hx2 (Finset.not_mem_empty x)
      · intro _
        rfl
    · constructor
      · intro hco
        exact hco.elim
      · intro hall
        rw [Finset.card_eq_zero, Finset.eq_empty_iff_forall_not_mem] at h
        exact absurd (fun x hx => hall x ((hmem x).mp hx)) h
  · intro S hS x
    simp only [assert_disjoint_splits] at hS
    split_ifs at hS with h
    cases hS
    exact hmem x

/-- Witness for C5 at a concrete input: the raised failure of the
overlapping example carries exactly the overlap set. -/
theorem assert_disjoint_splits_spec_witness :
    (3 : Int) ∈ ({3} : Finset Int) ↔
      (((3 : Int) ∈ [1, 2, 3] ∧ (3 : Int) ∈ [3, 4]) ∨
        ((3 : Int) ∈ [1, 2, 3] ∧ (3 : Int) ∈ [5]) ∨
        ((3 : Int) ∈ [3, 4] ∧ (3 : Int) ∈ [5])) :=
  (assert_disjoint_splits_spec [1, 2, 3] [3, 4] [5]).2.1 {3} (by decide) 3

/-- Claim C8: `assert_label_domain` raises exactly when some observed label
is outside the allowed set, succeeds silently otherwise, and the raised
failure carries exactly the set of distinct offending values; the two
concrete cases from the spec behave as stated. -/
theorem assert_label_domain_spec (y allowed : List Int) :
    (assert_label_domain y allowed = Except.ok () ↔ ∀ x ∈ y, x ∈ allowed) ∧
    (∀ S, assert_label_domain y allowed = Except.error S →
      ∀ x : Int, x ∈ S ↔ (x ∈ y ∧ x ∉ allowed)) ∧
    assert_label_domain [0, 1, 0, 1] [0, 1] = Except.ok () ∧
    assert_label_domain [0, 1, 2] [0, 1] = Except.error {2} := by
  refine ⟨?_, ?_, by decide, by decide⟩
  · simp only [assert_label_domain]
    split_ifs with h
    · rw [Finset.eq_empty_iff_forall_not_mem] at h
      constructor
      · intro _ x hx
        by_contra hxa
        exact h x (by simp [hx, hxa])
      · intro _
        rfl
    · constructor
      · intro hco
        exact hco.elim
      · intro hall
        rw [Finset.eq_empty_iff_forall_not_mem] at h
        refine absurd (fun x hx => ?_) h
        rw [Finset.mem_sdiff, List.mem_toFinset, List.mem_toFinset] at hx
        exact absurd (hall x hx.1) hx.2
  · intro S hS x
    simp only [assert_label_domain] at hS
    split_ifs at hS with h
    cases hS
    simp

/-- Witness for C8 at a concrete input: the raised failure of the
out-of-domain example carries exactly the offending set. -/
theorem assert_label_domain_spec_witness :
    (2 : Int) ∈ ({2} : Finset Int) ↔ ((2 : Int) ∈ [0, 1, 2] ∧ (2 : Int) ∉ [0, 1]) :=
  (assert_label_domain_spec [0, 1, 2] [0, 1]).2.1 {2} (by decide) 2

/-- The `too_small` dict of one split is empty exactly when every label
occurring in the split occurs at least `min_count` times. -/
theorem tooSmall_eq_nil_iff (labels : List Int) (min_count : Nat) :
    tooSmall labels min_count = [] ↔ ∀ c ∈ labels, min_count ≤ labels.count c := by
  simp only [tooSmall, List.filterMap_eq_nil_iff, List.mem_dedup]
  constructor
  · intro h c hc
    by_contra hlt
    have hc2 := h c hc
    rw [if_pos (Nat.lt_of_not_le hlt)] at hc2
    exact Option.noConfusion hc2
  · intro h c hc
    rw [if_neg (Nat.not_lt.mpr (h c hc))]

/-- Claim C6: `min_class_presence` raises exactly when some split contains
some label whose occurrence count within that split is strictly below
`min_count`, and succeeds silently otherwise; the two concrete cases from
the spec behave as stated. -/
theorem min_class_presence_spec (labels_by_split : List (String × List Int)) (min_count : Nat) :
    (min_class_presence labels_by_split min_count = Except.ok () ↔
      ∀ p ∈ labels_by_split, ∀ c ∈ p.2, min_count ≤ p.2.count c) ∧
    min_class_presence [("test", [0])] 2 = Except.error ("test", [(0, 1)]) ∧
    min_class_presence [("train", [0, 0, 1, 1, 1])] 2 = Except.ok () := by
  refine ⟨?_, by decide, by decide⟩
  induction labels_by_split with
  | nil => simp [min_class_presence]
  | cons p rest ih =>
    obtain ⟨s, labels⟩ := p
    simp only [min_class_presence]
    by_cases h : tooSmall labels min_count = []
    · have hl := (tooSmall_eq_nil_iff labels min_count).mp h
      rw [if_pos (by simp [h])]
      rw [ih]
      simp only [List.forall_mem_cons]
      exact (and_iff_right hl).symm
    · rw [if_neg (by simpa [List.isEmpty_iff] using h)]
      constructor
      · intro hco
        exact Except.noConfusion hco
      · intro hall
        exact absurd ((tooSmall_eq_nil_iff labels min_count).mpr
          (hall (s, labels) (List.mem_cons_self _ _))) h

/-- Counterexample to C7 as stated: with two violating splits
`("a", [0])` and `("b", [1])` at `min_count = 2`, the single raised
failure carries only the first split `"a"` with its dict, even though
split `"b"` is also violating (its `too_small` dict is non-empty). -/
theorem min_class_presence_first_only_counterexample :
    min_class_presence [("a", [0]), ("b", [1])] 2 = Except.error ("a", [(0, 1)]) ∧
    tooSmall [(1 : Int)] 2 = [(1, 1)] := by decide

/-- Amended C7: when the splits before some violating split are all
non-violating and that split has an under-represented class, the single
raised failure reports exactly that split (name and class-to-count dict),
regardless of any later splits — deficiencies in later splits are
suppressed, not reported. -/
theorem min_class_presence_first_violation (pre : List (String × List Int)) (s : String)
    (labels : List Int) (rest : List (String × List Int)) (min_count : Nat)
    (hpre : ∀ p ∈ pre, tooSmall p.2 min_count = [])
    (hviol : tooSmall labels min_count ≠ []) :
    min_class_presence (pre ++ (s, labels) :: rest) min_count =
      Except.error (s, tooSmall labels min_count) := by
  induction pre with
  | nil =>
    simp only [List.nil_append, min_class_presence]
    rw [if_neg (by simpa [List.isEmpty_iff] using hviol)]
  | cons q qs ih =>
    obtain ⟨qn, ql⟩ := q
    simp only [List.cons_append, min_class_presence]
    rw [if_pos (by simp [hpre (qn, ql) (List.mem_cons_self _ _)])]
    exact ih fun p hp => hpre p (List.mem_cons_of_mem _ hp)

/-- Witness for the amended C7 at a concrete input: after the clean split
`("ok", [0, 0])`, the violating split `("a", [0])` is reported and the
also-violating later split `("b", [1])` is not. -/
theorem min_class_presence_first_violation_witness :
    min_class_presence [("ok", [0, 0]), ("a", [0]), ("b", [1])] 2 =
      Except.error ("a", tooSmall [0] 2) :=
  min_class_presence_first_violation [("ok", [0, 0])] "a" [0] [("b", [1])] 2
    (by decide) (by decide)

/-- Claim C10: a split mapped to an empty label sequence contributes no
violation — `min_class_presence` treats it exactly as if it were absent,
for every `min_count`; in particular a single empty split passes the
check. -/
theorem min_class_presence_empty_split (s : String) (rest : List (String × List Int))
    (min_count : Nat) :
    min_class_presence ((s, []) :: rest) min_count = min_class_presence rest min_count ∧
    min_class_presence [("test", [])] 5 = Except.ok () :=
  ⟨rfl, rfl⟩

/-- Witness for C2 at a concrete input: the triplet `(0, 5, 10)` over
`100` frames satisfies the ordering chain and is accepted. -/
theorem check_event_triplet_ok_iff_witness :
    (check_event_triplet 0 5 10 100).1 = true :=
  (check_event_triplet_ok_iff 0 5 10 100).1.mpr (by decide)

/-- Witness for C1 at a concrete input: the Z3 query for the accepted
triplet `(0, 5, 10)` over `100` frames is satisfiable. -/
theorem strategy_equivalence_witness :
    check_event_triplet_z3_sat 0 5 10 100 :=
  (strategy_equivalence 0 5 10 100 0 0 0).1.mpr (by decide)

/-- Witness for C6 at a concrete input: a split in which every class
reaches the threshold passes the check. -/
theorem min_class_presence_spec_witness :
    min_class_presence [("val", [0, 1, 0, 1, 0])] 2 = Except.ok () :=
  (min_class_presence_spec [("val", [0, 1, 0, 1, 0])] 2).1.mpr (by decide)
